import Mathlib

/-
Verification development for the polymarket-signal-bot repository.

The signal-generation and risk-sizing pipeline is embedded shallowly:
Python floats are modelled as rationals (ℚ), Python lists as Lean lists
(oldest price first, matching the source), and the few places where the
source calls numpy's square root (standard deviations) are modelled by
their squares, since every use in the embedded code is an order
comparison and, for nonnegative a and b, sqrt a > sqrt b * c with c > 0
is equivalent to a > b * c^2.
Python's negative indexing xs[-k] (k > 0) is element (length - k);
xs[-0] is element 0.  Python's round(x, 2) is banker's rounding of the
underlying value to two decimal places, modelled exactly on ℚ by
round-half-to-even of 100 * x.  Python's int() truncates toward zero.
-/

/-- Last `n` elements of a list (Python `xs[-n:]` for `0 < n ≤ length`). -/
def lastN (n : ℕ) (xs : List ℚ) : List ℚ := xs.drop (xs.length - n)

/-- Arithmetic mean, `np.mean` (the empty case is never reached by the
guarded source call sites; ℚ makes it total as 0). -/
def listMean (xs : List ℚ) : ℚ := xs.sum / (xs.length : ℚ)

/-- Successive differences, `np.diff`. -/
def diffs (xs : List ℚ) : List ℚ := List.zipWith (fun a b => b - a) xs xs.tail

/-- Elementwise simple returns, `np.diff(xs) / xs[:-1]`. -/
def returnsOf (xs : List ℚ) : List ℚ :=
  List.zipWith (fun a b => (b - a) / a) xs xs.tail

/-- Population variance, the square of `np.std`. -/
def popVar (xs : List ℚ) : ℚ :=
  listMean (xs.map (fun x => (x - listMean xs) * (x - listMean xs)))

/-- `np.max` of a nonempty list. -/
def listMax : List ℚ → ℚ
  | [] => 0
  | h :: t => t.foldl max h

/-- `np.min` of a nonempty list. -/
def listMin : List ℚ → ℚ
  | [] => 0
  | h :: t => t.foldl min h

/-- Python `int()`: truncation toward zero. -/
def pyInt (q : ℚ) : ℤ := if 0 ≤ q then ⌊q⌋ else ⌈q⌉

/-- Round to the nearest integer, ties to even (Python's rounding mode). -/
def roundHE (q : ℚ) : ℤ :=
  if q - ⌊q⌋ < 1/2 then ⌊q⌋
  else if 1/2 < q - ⌊q⌋ then ⌊q⌋ + 1
  else if ⌊q⌋ % 2 = 0 then ⌊q⌋ else ⌊q⌋ + 1

/-- Python `round(q, 2)`. -/
def pyRound2 (q : ℚ) : ℚ := (roundHE (q * 100) : ℚ) / 100

/-- Signal direction tags used across the scorers: the baseline and
institutional scorers say NEUTRAL, the engines say NO_TRADE. -/
inductive Signal
  | up
  | down
  | neutral
  | noTrade
deriving DecidableEq

/-
`src/src/trading/risk_manager.py`, class RiskManager.
The percentage bounds are set to literals in __init__ and never
reassigned anywhere in the repository, so they are constants here; the
mutable fields are the structure.
-/

structure RiskManager where
  initial_capital : ℚ
  peak_capital : ℚ
  recent_trades : List ℚ
deriving DecidableEq

/-- `self.max_position_pct = 0.15`. -/
def RiskManager.max_position_pct : ℚ := 15/100

/-- `self.base_position_pct = 0.05`. -/
def RiskManager.base_position_pct : ℚ := 5/100

/-- `self.min_position = 1.0`. -/
def RiskManager.min_position : ℚ := 1

/-- `self.max_daily_loss_pct = 0.20`. -/
def RiskManager.max_daily_loss_pct : ℚ := 20/100

/-- `self.max_drawdown_pct = 0.25`. -/
def RiskManager.max_drawdown_pct : ℚ := 25/100

/-- The base size after the confidence multiplier and the streak
adjustment, the value of `base_size` at line 58 of risk_manager.py. -/
def RiskManager.streak_adjusted_base (capital confidence : ℚ)
    (win_streak loss_streak : ℤ) : ℚ :=
  let confidence_multiplier := confidence / 100
  let base_size := capital * RiskManager.base_position_pct * confidence_multiplier
  if loss_streak ≥ 2 then base_size * (5/10)
  else if win_streak ≥ 2 then base_size * (12/10)
  else base_size

/-- `RiskManager.calculate_position_size`.  `recent_pnl` is accepted and
ignored exactly as in the source.  The division is by `peak_capital`
(total on ℚ; the Python code divides unguarded). -/
def RiskManager.calculate_position_size (rm : RiskManager)
    (capital confidence recent_pnl : ℚ) (win_streak loss_streak : ℤ) : ℚ :=
  let base_size := RiskManager.streak_adjusted_base capital confidence win_streak loss_streak
  let drawdown := (rm.peak_capital - capital) / rm.peak_capital
  let base_size := if drawdown > 1/10 then base_size * (7/10) else base_size
  let base_size := if drawdown > 2/10 then base_size * (5/10) else base_size
  let max_size := capital * RiskManager.max_position_pct
  let position_size := max RiskManager.min_position (min base_size max_size)
  let position_size := min position_size (capital * (95/100))
  pyRound2 position_size

/-- The reason strings returned by `should_trade`, one constructor per
f-string, carrying the interpolated values. -/
inductive TradeReason
  | confidenceTooLow (confidence : ℚ)
  | capitalPreservation (capital floor : ℚ)
  | dailyLossLimit (daily_loss_pct max_pct : ℚ)
  | maxDrawdownExceeded (drawdown max_pct : ℚ)
  | allChecksPassed
deriving DecidableEq

/-- `RiskManager.should_trade`: the four checks in source order, the
first failing check's reason returned. -/
def RiskManager.should_trade (rm : RiskManager)
    (capital confidence daily_pnl : ℚ) : Bool × TradeReason :=
  if confidence < 60 then
    (false, .confidenceTooLow confidence)
  else if capital < rm.initial_capital * (30/100) then
    (false, .capitalPreservation capital (rm.initial_capital * (30/100)))
  else
    let daily_loss_pct := |daily_pnl| / rm.initial_capital
    if daily_pnl < 0 ∧ daily_loss_pct > RiskManager.max_daily_loss_pct then
      (false, .dailyLossLimit daily_loss_pct RiskManager.max_daily_loss_pct)
    else
      let drawdown := (rm.peak_capital - capital) / rm.peak_capital
      if drawdown > RiskManager.max_drawdown_pct then
        (false, .maxDrawdownExceeded drawdown RiskManager.max_drawdown_pct)
      else
        (true, .allChecksPassed)

/-- `RiskManager.update_peak`. -/
def RiskManager.update_peak (rm : RiskManager) (capital : ℚ) : RiskManager :=
  if capital > rm.peak_capital then { rm with peak_capital := capital } else rm

/-- The core RiskManager operations, for reasoning about sequences of
calls. -/
inductive RiskOp
  | calcSize (capital confidence recent_pnl : ℚ) (win_streak loss_streak : ℤ)
  | checkTrade (capital confidence daily_pnl : ℚ)
  | updatePeak (capital : ℚ)

/-- State transition of one operation.  The bodies of
`calculate_position_size` and `should_trade` contain no assignment to
any `self` field, so the post-state is the pre-state; `update_peak` is
the one mutator. -/
def RiskOp.apply (rm : RiskManager) : RiskOp → RiskManager
  | .calcSize _ _ _ _ _ => rm
  | .checkTrade _ _ _ => rm
  | .updatePeak capital => rm.update_peak capital

/-- Run a sequence of operations. -/
def RiskOp.run (rm : RiskManager) : List RiskOp → RiskManager
  | [] => rm
  | op :: ops => RiskOp.run (RiskOp.apply rm op) ops

/-
`src/src/indicators/technical.py`.
-/

namespace Technical

/-- `calculate_rsi` (technical.py lines 10-41). -/
def calculate_rsi (prices : List ℚ) (period : ℕ) : ℚ :=
  if prices.length < period + 1 then 50
  else
    let deltas := diffs prices
    let gains := deltas.map (fun d => if d > 0 then d else 0)
    let losses := deltas.map (fun d => if d < 0 then -d else 0)
    let avg_gain := listMean (lastN period gains)
    let avg_loss := listMean (lastN period losses)
    if avg_loss = 0 then 100
    else
      let rs := avg_gain / avg_loss
      100 - 100 / (1 + rs)

/-- `calculate_sma`. -/
def calculate_sma (prices : List ℚ) (period : ℕ) : ℚ :=
  if prices.length < period then prices.getLastD 0
  else listMean (lastN period prices)

/-- `calculate_momentum` (technical.py lines 66-82).  Note the guard is
`len(prices) < period` and the lookback element is `prices[-period]`,
one element less far back than the signal-bot variant.  For
`period = 0` the Python expression `prices[-0]` is `prices[0]`. -/
def calculate_momentum (prices : List ℚ) (period : ℕ) : ℚ :=
  if prices.length < period then 0
  else
    let old_price := prices.getD (if period = 0 then 0 else prices.length - period) 0
    let current_price := prices.getLastD 0
    if old_price = 0 then 0
    else ((current_price - old_price) / old_price) * 100

/-- The square of `calculate_volatility` (technical.py lines 85-98):
the source returns `np.std(returns) * 100`; this is its square,
`popVar returns * 100^2`, which determines the source value (the
source value is 0 iff this is 0, and exceeds c ≥ 0 iff this exceeds
c^2).  `analyze_price_action` never branches on the volatility, it only
reports it. -/
def calculate_volatility_sq (prices : List ℚ) (period : ℕ) : ℚ :=
  if prices.length < period + 1 then 0
  else popVar (returnsOf (lastN (period + 1) prices)) * 10000

/-- Trend tag of `detect_trend`. -/
inductive Trend
  | up
  | down
  | sideways
deriving DecidableEq

/-- Result dictionary of `detect_trend`. -/
structure TrendInfo where
  trend : Trend
  strength : ℚ
  short_ma : ℚ
  long_ma : ℚ
deriving DecidableEq

/-- `detect_trend` (technical.py lines 101-141). -/
def detect_trend (prices : List ℚ) (short_period long_period : ℕ) : TrendInfo :=
  if prices.length < long_period then
    ⟨.sideways, 0, prices.getLastD 0, prices.getLastD 0⟩
  else
    let short_ma := calculate_sma prices short_period
    let long_ma := calculate_sma prices long_period
    let trend :=
      if short_ma > long_ma * (1005/1000) then Trend.up
      else if short_ma < long_ma * (995/1000) then Trend.down
      else Trend.sideways
    let diff_pct := |(short_ma - long_ma) / long_ma| * 100
    let strength := min (diff_pct * 50) 100
    ⟨trend, strength, short_ma, long_ma⟩

/-- Result of `analyze_price_action`; the reported volatility value is
modelled separately by `calculate_volatility_sq` (it does not influence
signal or confidence). -/
structure PriceAction where
  rsi : ℚ
  momentum : ℚ
  trend : TrendInfo
  signal : Signal
  confidence : ℚ
deriving DecidableEq

/-- `analyze_price_action` (technical.py lines 144-195). -/
def analyze_price_action (prices : List ℚ) : PriceAction :=
  if prices.length < 20 then ⟨50, 0, ⟨.sideways, 0, 0, 0⟩, .neutral, 0⟩
  else
    let rsi := calculate_rsi prices 14
    let momentum := calculate_momentum prices 5
    let trend := detect_trend prices 5 20
    if rsi < 30 ∧ momentum < 0 ∧ trend.trend = .down then
      ⟨rsi, momentum, trend, .up, min (70 + (30 - rsi)) 100⟩
    else if rsi > 70 ∧ momentum > 0 ∧ trend.trend = .up then
      ⟨rsi, momentum, trend, .down, min (70 + (rsi - 70)) 100⟩
    else if |momentum| > 2 ∧ trend.strength > 30 then
      if momentum > 0 ∧ trend.trend = .up then
        ⟨rsi, momentum, trend, .up, ((min (50 + pyInt (momentum * 10)) 100 : ℤ) : ℚ)⟩
      else if momentum < 0 ∧ trend.trend = .down then
        ⟨rsi, momentum, trend, .down, ((min (50 + pyInt (|momentum| * 10)) 100 : ℤ) : ℚ)⟩
      else ⟨rsi, momentum, trend, .neutral, 0⟩
    else ⟨rsi, momentum, trend, .neutral, 0⟩

end Technical

/-
`src/signal_bot.py`, class SignalEngine.
-/

namespace SignalBot

/-- `SignalEngine.calculate_momentum` (signal_bot.py lines 105-116).
Guard `len(prices) < window + 1`, lookback element `prices[-window-1]`. -/
def calculate_momentum (prices : List ℚ) (window : ℕ) : ℚ :=
  if prices.length < window + 1 then 0
  else
    let old_price := prices.getD (prices.length - window - 1) 0
    let current_price := prices.getLastD 0
    if old_price = 0 then 0
    else ((current_price - old_price) / old_price) * 100

/-- `SignalEngine.calculate_momentum_slope`. -/
def calculate_momentum_slope (prices : List ℚ) : ℚ :=
  if prices.length < 120 then 0
  else
    calculate_momentum (lastN 60 prices) 30 -
      calculate_momentum ((prices.drop (prices.length - 120)).take 60) 30

/-- `SignalEngine.calculate_vwap_distance`. -/
def calculate_vwap_distance (prices volumes : List ℚ) : ℚ :=
  if prices.length < 30 ∨ (lastN 30 volumes).sum = 0 then 0
  else
    let recent_prices := lastN 30 prices
    let recent_volumes := lastN 30 volumes
    let vwap := (List.zipWith (fun a b => a * b) recent_prices recent_volumes).sum /
      recent_volumes.sum
    let current := prices.getLastD 0
    if vwap = 0 then 0
    else ((current - vwap) / vwap) * 100

/-- `SignalEngine.calculate_volume_impulse`. -/
def calculate_volume_impulse (volumes : List ℚ) : ℚ :=
  if volumes.length < 30 then 0
  else
    let recent := lastN 10 volumes
    let baseline := (volumes.drop (volumes.length - 30)).take 20
    if baseline = [] ∨ listMean baseline = 0 then 0
    else (listMean recent - listMean baseline) / listMean baseline * 100

/-- The scoring section of `SignalEngine.generate_signal` (signal_bot.py
lines 231-271), transcribed branch by branch. -/
def score_of (mom_30s mom_slope vol_pct : ℚ) (vol_expanding : Bool)
    (vwap_dist vol_impulse : ℚ) : ℚ :=
  let score : ℚ := 0
  let score :=
    if mom_30s > 15/100 then score + 4/10
    else if mom_30s < -(15/100) then score - 4/10
    else if mom_30s > 8/100 then score + 2/10
    else if mom_30s < -(8/100) then score - 2/10
    else score
  let score :=
    if mom_slope > 1/10 then score + 25/100
    else if mom_slope < -(1/10) then score - 25/100
    else if mom_slope > 5/100 then score + 1/10
    else if mom_slope < -(5/100) then score - 1/10
    else score
  let score :=
    if vol_expanding ∧ vol_pct > 3/10 then
      (if score > 0 then score + 15/100 else score - 15/100)
    else score
  let score :=
    if |vwap_dist| > 5/10 then
      (if vwap_dist > 5/10 then score - 1/10
       else if vwap_dist < -(5/10) then score + 1/10
       else score)
    else score
  let score :=
    if vol_impulse > 20 then (if score > 0 then score + 1/10 else score - 1/10)
    else score
  score

/-- The decision section of `SignalEngine.generate_signal` (signal_bot.py
lines 273-291): aggressive thresholds with a weak-momentum tiebreak. -/
def decide_signal (score mom_60s : ℚ) : Signal × ℤ :=
  if score > 15/100 then (.up, min 95 (pyInt (55 + score * 100)))
  else if score < -(15/100) then (.down, min 95 (pyInt (55 + |score| * 100)))
  else if mom_60s > 5/100 then (.up, 50)
  else if mom_60s < -(5/100) then (.down, 50)
  else (.noTrade, 0)

/-- `SignalEngine.generate_signal` (signal_bot.py lines 189-331),
reduced to the direction and confidence it emits.  The parameters
`recent_vol` and `earlier_vol` stand for the two `np.std`-based values
of `calculate_volatility_regime` (irrational square roots in general);
the source only uses them in the order comparisons transcribed here
(`vol_regime == 'expanding'` is `recent_vol > earlier_vol`, and
`vol_pct` is `recent_vol`), so quantifying over ℚ covers every
reachable branch combination.  The readiness flag and z-score are
reporting-only and omitted. -/
def generate_signal (prices volumes : List ℚ) (recent_vol earlier_vol : ℚ) :
    Signal × ℤ :=
  if prices.length < 120 then (.noTrade, 0)
  else
    let mom_30s := calculate_momentum prices 30
    let mom_60s := calculate_momentum prices 60
    let mom_slope := calculate_momentum_slope prices
    let vol_pct := recent_vol
    let vol_expanding := decide (recent_vol > earlier_vol)
    let vwap_dist := calculate_vwap_distance prices volumes
    let vol_impulse := calculate_volume_impulse volumes
    decide_signal (score_of mom_30s mom_slope vol_pct vol_expanding vwap_dist vol_impulse)
      mom_60s

/-- A wall-clock reading (UTC hour, minute, second), the data
`should_finalize` and `emit_signals` extract from `datetime.now`. -/
structure Clock where
  hour : ℕ
  minute : ℕ
  second : ℕ
deriving DecidableEq

/-- `FINALIZE_TIMES = ['14:50', '29:50', '44:50', '59:50']` parsed into
(minute, second) pairs. -/
def finalize_times : List (ℕ × ℕ) := [(14, 50), (29, 50), (44, 50), (59, 50)]

/-- The 15-minute market window containing a clock reading: the hour
and the quarter of the hour. -/
def windowOf (t : Clock) : ℕ × ℕ := (t.hour, t.minute / 15)

/-- The engine state relevant to finalize deduplication: the
`last_finalize` field, holding the hour-minute stamp of the last
finalize emission (`now.strftime('%H:%M')`). -/
structure EngineState where
  last_finalize : Option (ℕ × ℕ)
deriving DecidableEq

/-- `SignalEngine.should_finalize` (signal_bot.py lines 357-371): true
iff the clock matches some finalize time to within 5 seconds and the
last recorded finalize stamp is not this hour-minute. -/
def should_finalize (st : EngineState) (t : Clock) : Bool :=
  finalize_times.any (fun ft =>
    decide (t.minute = ft.1) &&
    decide (|(t.second : ℤ) - (ft.2 : ℤ)| ≤ 5) &&
    decide (st.last_finalize ≠ some (t.hour, t.minute)))

/-- The state effect of `SignalEngine.emit_signals` (signal_bot.py
lines 373-400) on `last_finalize`: a finalize emission records the
current hour-minute stamp, a regular emission leaves it unchanged. -/
def emit_signals (st : EngineState) (t : Clock) (finalize : Bool) : EngineState :=
  if finalize then ⟨some (t.hour, t.minute)⟩ else st

end SignalBot

/-
`src/continuous_signal_engine.py`, class ContinuousSignalEngine.
-/

namespace Continuous

/-- Outcome of the one `requests.get` call of `fetch_btc_price_data`:
either a 200 response whose candles parse to a list of closes, or any
transport error, non-200 status, or parse failure. -/
inductive Fetch
  | ok (closes : List ℚ)
  | fail
deriving DecidableEq

/-- `ContinuousSignalEngine.fetch_btc_price_data` (lines 51-77).  On a
200 response the closes are returned (an empty candle list raises
IndexError at `closes[-1]` inside the try and is caught, falling to the
cache path).  On any failure the cached list is returned if non-empty,
else the placeholder `[0.0] * 60`.  There is no secondary endpoint in
this function. -/
def fetch_btc_price_data (primary : Fetch) (price_cache : List ℚ) : List ℚ :=
  match primary with
  | .ok closes =>
      if closes = [] then
        (if price_cache ≠ [] then price_cache else List.replicate 60 0)
      else closes
  | .fail =>
      if price_cache ≠ [] then price_cache else List.replicate 60 0

/-- The scoring section of `calculate_advanced_signal` (lines 142-176),
transcribed branch by branch over the computed indicator values. -/
def score_of (momentum_30s momentum_accel current sma_5 sma_20
    volatility_pct vol_recent distance_from_sma20 : ℚ) : ℚ :=
  let score : ℚ := 0
  let score :=
    if momentum_30s > 2/10 then score + 4/10
    else if momentum_30s < -(2/10) then score - 4/10
    else score
  let score :=
    if momentum_accel > 15/100 then score + 2/10
    else if momentum_accel < -(15/100) then score - 2/10
    else score
  let score :=
    if current > sma_5 ∧ sma_5 > sma_20 then score + 2/10
    else if current < sma_5 ∧ sma_5 < sma_20 then score - 2/10
    else if current > sma_5 then score + 1/10
    else if current < sma_5 then score - 1/10
    else score
  let score :=
    if vol_recent > volatility_pct ∧ volatility_pct > 5/10 then score + 1/10
    else score
  let score :=
    if |distance_from_sma20| > 15/10 then
      (if distance_from_sma20 > 15/10 then score - 1/10
       else if distance_from_sma20 < -(15/10) then score + 1/10
       else score)
    else score
  score

/-- The decision section of `calculate_advanced_signal` (lines
178-189): 25% score threshold. -/
def decide_advanced (score : ℚ) : Signal × ℤ :=
  if score > 25/100 then (.up, min 95 (pyInt (50 + score * 100)))
  else if score < -(25/100) then (.down, min 95 (pyInt (50 + |score| * 100)))
  else (.noTrade, 0)

/-- `ContinuousSignalEngine.calculate_advanced_signal` (lines 79-208),
reduced to the direction and confidence it emits.  The parameters
`volatility_pct` and `vol_recent` stand for the two `np.std`-based
values (irrational square roots in general); the source only uses them
in the transcribed order comparisons (`volatility_state == 'expanding'`
is `vol_recent > volatility_pct`), so quantifying over ℚ covers every
reachable branch combination. -/
def calculate_advanced_signal (prices : List ℚ)
    (volatility_pct vol_recent : ℚ) : Signal × ℤ :=
  if prices.length < 20 then (.noTrade, 0)
  else
    let n := prices.length
    let current := prices.getLastD 0
    let momentum_30s :=
      if n ≥ 2 then
        let p := prices.getD (n - 2) 0
        ((current - p) / p) * 100
      else 0
    let momentum_120s :=
      if n ≥ 5 then
        let p := prices.getD (n - 5) 0
        ((current - p) / p) * 100
      else 0
    let momentum_accel := momentum_30s - momentum_120s
    let sma_5 := listMean (lastN 5 prices)
    let sma_20 := listMean (lastN 20 prices)
    let distance_from_sma20 := ((current - sma_20) / sma_20) * 100
    decide_advanced (score_of momentum_30s momentum_accel current sma_5 sma_20
      volatility_pct vol_recent distance_from_sma20)

end Continuous

/-
`src/src/data/price_feed.py`, class BTCPriceFeed.
-/

namespace PriceFeed

/-- Outcome of one HTTP request: parsed price list, or any transport
error, `raise_for_status` failure, or parse failure. -/
inductive Fetch
  | ok (prices : List ℚ)
  | fail
deriving DecidableEq

/-- `BTCPriceFeed._get_backup_prices` (price_feed.py lines 50-71): the
Binance closes on success, the empty list on failure. -/
def backup_prices (backup : Fetch) : List ℚ :=
  match backup with
  | .ok closes => closes
  | .fail => []

/-- `BTCPriceFeed.get_recent_prices` (price_feed.py lines 18-48): on
primary (CoinCap) success the last `max 1 (minutes / 60)` prices (the
empty list if none parsed); on any primary failure, the backup source.
The class holds no cache. -/
def get_recent_prices (primary backup : Fetch) (minutes : ℕ) : List ℚ :=
  match primary with
  | .ok prices =>
      let hours_needed := max 1 (minutes / 60)
      if prices ≠ [] then lastN hours_needed prices else []
  | .fail => backup_prices backup

end PriceFeed

/-
`src/institutional_strategy.py`, class InstitutionalStrategy.
-/

namespace Institutional

/-- Population variance of the simple returns of the last 10 prices:
the square of `recent_vol` in `_check_volatility_expansion`
(institutional_strategy.py line 135), whose source value is
`np.std(...) * 100`; this is its square divided by 100^2. -/
def recent_var (pArr : List ℚ) : ℚ := popVar (returnsOf (lastN 10 pArr))

/-- Square of `hist_vol / 100` (line 138). -/
def hist_var (pArr : List ℚ) : ℚ := popVar (returnsOf (lastN 30 pArr))

/-- GATE 2, `_check_volatility_expansion` boolean:
`recent_vol > hist_vol * 1.2` with both standard deviations
nonnegative is equivalent to `recent_var > hist_var * 1.44`. -/
def vol_gate (pArr : List ℚ) : Bool := decide (recent_var pArr > hist_var pArr * (36/25))

/-- `current_vol > HIGH_VOL_THRESHOLD` where `current_vol` is
`sqrt (recent_var) * 100` and the threshold is 1.5: equivalent to
`recent_var > (1.5 / 100)^2 = 9/40000`. -/
def high_vol (pArr : List ℚ) : Bool := decide (recent_var pArr > 9/40000)

/-- GATE 1, `_check_momentum_deceleration` (lines 102-127), returning
(gate, direction).  The Python chained comparison
`abs(mom_1) < abs(mom_3) < abs(mom_5)` and the fallthrough to the
acceleration check are transcribed as the first-match branch chain. -/
def check_momentum_deceleration (pArr : List ℚ) : Bool × ℚ :=
  let n := pArr.length
  let cur := pArr.getLastD 0
  let mom_1 := (cur - pArr.getD (n - 2) 0) / pArr.getD (n - 2) 0 * 100
  let mom_3 := (cur - pArr.getD (n - 4) 0) / pArr.getD (n - 4) 0 * 100
  let mom_5 := (cur - pArr.getD (n - 6) 0) / pArr.getD (n - 6) 0 * 100
  if mom_1 > 0 ∧ mom_3 > 0 ∧ |mom_1| < |mom_3| ∧ |mom_3| < |mom_5| then (true, -1)
  else if mom_1 < 0 ∧ mom_3 < 0 ∧ |mom_1| < |mom_3| ∧ |mom_3| < |mom_5| then (true, 1)
  else if |mom_1| > |mom_3| * (3/2) then (true, if mom_1 > 0 then 1 else -1)
  else (false, 0)

/-- GATE 3, `_check_range_extreme_or_vwap` (lines 146-182), returning
(gate, vwap deviation). -/
def check_range_extreme_or_vwap (pArr : List ℚ) (volumes : Option (List ℚ)) :
    Bool × ℚ :=
  let current := pArr.getLastD 0
  let high_20 := listMax (lastN 20 pArr)
  let low_20 := listMin (lastN 20 pArr)
  let range_20 := high_20 - low_20
  if range_20 > 0 ∧ (current - low_20) / range_20 > 90/100 then (true, -(9/10))
  else if range_20 > 0 ∧ (current - low_20) / range_20 < 10/100 then (true, 9/10)
  else
    let sma_20 := listMean (lastN 20 pArr)
    let dev := (current - sma_20) / sma_20 * 100
    let sma_branch : Bool × ℚ := if |dev| > 3/2 then (true, dev) else (false, 0)
    match volumes with
    | some vs =>
        if vs ≠ [] ∧ vs.length ≥ pArr.length then
          let v := lastN pArr.length vs
          let vwap := (List.zipWith (fun a b => a * b) pArr v).sum / v.sum
          let vwap_dev := (current - vwap) / vwap * 100
          if |vwap_dev| > 1 then (true, vwap_dev) else (false, 0)
        else sma_branch
    | none => sma_branch

/-- `_is_active_session` (lines 188-201), on the UTC hour. -/
def is_active_session (hour : ℕ) : Bool :=
  decide (8 ≤ hour ∧ hour < 16) || decide (13 ≤ hour ∧ hour < 21)

/-- `_calculate_confidence` (lines 203-227).  `volatility_var` stands
for the square of `volatility / 100`; the body's one use of
`volatility` is the comparison against the 1.5 threshold, encoded on
squares.  `momentum_dir` is accepted and ignored as in the source. -/
def calculate_confidence (momentum_gate volg range_gate : Bool)
    (momentum_dir vwap_dev volatility_var : ℚ)
    (active high_vol_regime : Bool) : ℤ :=
  let confidence : ℤ := 0
  let confidence := if momentum_gate then confidence + 25 else confidence
  let confidence := if volg then confidence + 20 else confidence
  let confidence := if range_gate then confidence + 25 else confidence
  let confidence := if |vwap_dev| > 2 then confidence + 10 else confidence
  let confidence := if volatility_var > 9/40000 then confidence + 10 else confidence
  let confidence := if active then confidence + 10 else confidence
  min 95 confidence

/-- Result of `InstitutionalStrategy.analyze`, reduced to the fields
the spec speaks about (signal, confidence, gate counts); the tiered
position size and the reporting-only metrics are omitted. -/
structure InstResult where
  signal : Signal
  confidence : ℤ
  gates_passed : ℕ
  gates_required : ℕ
deriving DecidableEq

/-- `gates_required` of `analyze` (line 55-58): 2 during an active
session or a high-volatility regime, else 3. -/
def gates_required_of (pArr : List ℚ) (hour : ℕ) : ℕ :=
  if is_active_session hour || high_vol pArr then 2 else 3

/-- `gates_passed` of `analyze` (line 61): the number of true gates. -/
def gates_passed_of (pArr : List ℚ) (volumes : Option (List ℚ)) : ℕ :=
  (if (check_momentum_deceleration pArr).1 then 1 else 0) +
    (if vol_gate pArr then 1 else 0) +
    (if (check_range_extreme_or_vwap pArr volumes).1 then 1 else 0)

/-- The confidence computed by `analyze` (lines 64-68). -/
def confidence_of (pArr : List ℚ) (volumes : Option (List ℚ)) (hour : ℕ) : ℤ :=
  calculate_confidence (check_momentum_deceleration pArr).1 (vol_gate pArr)
    (check_range_extreme_or_vwap pArr volumes).1
    (check_momentum_deceleration pArr).2 (check_range_extreme_or_vwap pArr volumes).2
    (recent_var pArr) (is_active_session hour) (high_vol pArr)

/-- `InstitutionalStrategy.analyze` (lines 32-100), with the current
UTC hour passed explicitly (the source reads `datetime.now`).  The
insufficient-data return carries no gate counts in the source; they are
0 here. -/
def analyze (prices : List ℚ) (volumes : Option (List ℚ)) (hour : ℕ) : InstResult :=
  if prices.length < 50 then ⟨.neutral, 0, 0, 0⟩
  else
    let pArr := lastN 50 prices
    if gates_passed_of pArr volumes ≥ gates_required_of pArr hour ∧
        confidence_of pArr volumes hour ≥ 70 then
      ⟨if (check_momentum_deceleration pArr).2 > 0 then .up else .down,
        confidence_of pArr volumes hour,
        gates_passed_of pArr volumes, gates_required_of pArr hour⟩
    else ⟨.neutral, 0, gates_passed_of pArr volumes, gates_required_of pArr hour⟩

end Institutional

/-
Helper lemmas.
-/

theorem roundHE_le_add_half (q : ℚ) : (roundHE q : ℚ) ≤ q + 1/2 := by
  unfold roundHE
  have h1 : (⌊q⌋ : ℚ) ≤ q := Int.floor_le q
  split_ifs with ha hb hc <;> push_cast <;> linarith

theorem pyRound2_le_add (q : ℚ) : pyRound2 q ≤ q + 1/200 := by
  unfold pyRound2
  have h := roundHE_le_add_half (q * 100)
  rw [div_le_iff₀ (by norm_num : (0:ℚ) < 100)]
  linarith

theorem pyInt_nonneg (q : ℚ) (h : 0 ≤ q) : 0 ≤ pyInt q := by
  unfold pyInt
  rw [if_pos h]
  exact Int.floor_nonneg.mpr h

theorem update_peak_spec (rm : RiskManager) (capital : ℚ) :
    (rm.update_peak capital).peak_capital = max rm.peak_capital capital ∧
    (rm.update_peak capital).initial_capital = rm.initial_capital ∧
    (rm.update_peak capital).recent_trades = rm.recent_trades := by
  unfold RiskManager.update_peak
  split_ifs with h
  · exact ⟨(max_eq_right h.le).symm, rfl, rfl⟩
  · exact ⟨(max_eq_left (le_of_not_lt h)).symm, rfl, rfl⟩

theorem run_frame (rm : RiskManager) (ops : List RiskOp) :
    (RiskOp.run rm ops).initial_capital = rm.initial_capital ∧
    (RiskOp.run rm ops).recent_trades = rm.recent_trades ∧
    rm.peak_capital ≤ (RiskOp.run rm ops).peak_capital := by
  induction ops generalizing rm with
  | nil => exact ⟨rfl, rfl, le_refl _⟩
  | cons op ops ih =>
    have happ : (RiskOp.apply rm op).initial_capital = rm.initial_capital ∧
        (RiskOp.apply rm op).recent_trades = rm.recent_trades ∧
        rm.peak_capital ≤ (RiskOp.apply rm op).peak_capital := by
      cases op with
      | calcSize capital confidence recent_pnl ws ls => exact ⟨rfl, rfl, le_refl _⟩
      | checkTrade capital confidence daily_pnl => exact ⟨rfl, rfl, le_refl _⟩
      | updatePeak c =>
        show (rm.update_peak c).initial_capital = _ ∧ _
        obtain ⟨hp, hi, ht⟩ := update_peak_spec rm c
        exact ⟨hi, ht, hp ▸ le_max_left _ _⟩
    obtain ⟨ha, hb, hc⟩ := ih (RiskOp.apply rm op)
    refine ⟨?_, ?_, ?_⟩
    · show (RiskOp.run (RiskOp.apply rm op) ops).initial_capital = _
      rw [ha, happ.1]
    · show (RiskOp.run (RiskOp.apply rm op) ops).recent_trades = _
      rw [hb, happ.2.1]
    · exact le_trans happ.2.2 hc

theorem round_min_cap_le (x c : ℚ) :
    pyRound2 (min x c) ≤ c + 1/200 := by
  have h1 := pyRound2_le_add (min x c)
  have h2 := min_le_right x c
  linarith

/-
Claim theorems.
-/

/-- C1 counterexample: with peak 100 and capital 75 (drawdown 25% >
20%), the code multiplies the base size by 0.7 and then by 0.5 — the
result is the round of base x 0.35, not the round of base x 0.5 that
the claim predicts (both computed through the same clamps, which do
not bind here). -/
theorem c1_drawdown_stacking_cex :
    RiskManager.calculate_position_size ⟨100, 100, []⟩ 75 80 0 0 0 = 21/20 ∧
    pyRound2 (min (max RiskManager.min_position
      (min (RiskManager.streak_adjusted_base 75 80 0 0 * (35/100))
        (75 * RiskManager.max_position_pct))) (75 * (95/100))) = 21/20 ∧
    pyRound2 (min (max RiskManager.min_position
      (min (RiskManager.streak_adjusted_base 75 80 0 0 * (5/10))
        (75 * RiskManager.max_position_pct))) (75 * (95/100))) = 3/2 ∧
    (21/20 : ℚ) ≠ 3/2 := by with_unfolding_all decide

/-- C1 amended: when the drawdown from peak exceeds 20%, both drawdown
branches of `calculate_position_size` fire, so the streak-adjusted base
is scaled by 0.7 and then by 0.5 — a combined multiplicative factor of
0.35, not a replacing 0.5. -/
theorem c1_drawdown_factors_stack (rm : RiskManager)
    (capital confidence recent_pnl : ℚ) (ws ls : ℤ)
    (hpk : 0 < rm.peak_capital)
    (hdd : (rm.peak_capital - capital) / rm.peak_capital > 2/10) :
    rm.calculate_position_size capital confidence recent_pnl ws ls =
      pyRound2 (min (max RiskManager.min_position
        (min (RiskManager.streak_adjusted_base capital confidence ws ls * (7/10) * (5/10))
          (capital * RiskManager.max_position_pct)))
        (capital * (95/100))) := by
  simp only [RiskManager.calculate_position_size]
  rw [if_pos hdd, if_pos (show (rm.peak_capital - capital) / rm.peak_capital > 1/10 by linarith)]

/-- C1 witness: the amended theorem applied at peak 100, capital 75,
confidence 80. -/
theorem c1_drawdown_factors_stack_witness :
    0 < (RiskManager.mk 100 100 []).peak_capital ∧
    ((RiskManager.mk 100 100 []).peak_capital - 75) / (RiskManager.mk 100 100 []).peak_capital > 2/10 ∧
    RiskManager.calculate_position_size ⟨100, 100, []⟩ 75 80 0 0 0 =
      pyRound2 (min (max RiskManager.min_position
        (min (RiskManager.streak_adjusted_base 75 80 0 0 * (7/10) * (5/10))
          (75 * RiskManager.max_position_pct)))
        (75 * (95/100))) :=
  ⟨by norm_num, by norm_num,
    c1_drawdown_factors_stack ⟨100, 100, []⟩ 75 80 0 0 0 (by norm_num) (by norm_num)⟩

/-- C3 counterexample: the technical.py momentum at window 3 on a
3-element list is 200, where the claimed formula (which requires
window + 1 = 4 elements) says 0. -/
theorem c3_momentum_divergence_cex :
    Technical.calculate_momentum [1, 2, 3] 3 = 200 ∧ (200 : ℚ) ≠ 0 := by with_unfolding_all decide

/-- C3 amended: the signal-bot momentum matches the claimed formula
(lookback `prices[-window-1]`, minimum length window + 1), while the
technical.py momentum looks back only `prices[-window]` and requires
only `window` elements. -/
theorem c3_momentum_characterizations (prices : List ℚ) (w : ℕ) (hw : 1 ≤ w) :
    (SignalBot.calculate_momentum prices w =
      if w + 1 ≤ prices.length ∧ prices.getD (prices.length - w - 1) 0 ≠ 0 then
        ((prices.getLastD 0 - prices.getD (prices.length - w - 1) 0) /
          prices.getD (prices.length - w - 1) 0) * 100
      else 0) ∧
    (Technical.calculate_momentum prices w =
      if w ≤ prices.length ∧ prices.getD (prices.length - w) 0 ≠ 0 then
        ((prices.getLastD 0 - prices.getD (prices.length - w) 0) /
          prices.getD (prices.length - w) 0) * 100
      else 0) := by
  constructor
  · unfold SignalBot.calculate_momentum
    by_cases hlen : prices.length < w + 1
    · rw [if_pos hlen, if_neg]
      rintro ⟨h1, -⟩
      omega
    · rw [if_neg hlen]
      by_cases hold : prices.getD (prices.length - w - 1) 0 = 0
      · rw [if_pos hold, if_neg]
        rintro ⟨-, h2⟩
        exact h2 hold
      · rw [if_neg hold, if_pos ⟨by omega, hold⟩]
  · unfold Technical.calculate_momentum
    rw [if_neg (by omega : ¬ w = 0)]
    by_cases hlen : prices.length < w
    · rw [if_pos hlen, if_neg]
      rintro ⟨h1, -⟩
      omega
    · rw [if_neg hlen]
      by_cases hold : prices.getD (prices.length - w) 0 = 0
      · rw [if_pos hold, if_neg]
        rintro ⟨-, h2⟩
        exact h2 hold
      · rw [if_neg hold, if_pos ⟨by omega, hold⟩]

/-- C3 witness: the amended theorem applied at prices [1, 2, 3] and
window 1. -/
theorem c3_momentum_characterizations_witness :
    1 ≤ 1 ∧
    ((SignalBot.calculate_momentum [1, 2, 3] 1 =
      if 1 + 1 ≤ ([1, 2, 3] : List ℚ).length ∧
          ([1, 2, 3] : List ℚ).getD (([1, 2, 3] : List ℚ).length - 1 - 1) 0 ≠ 0 then
        ((([1, 2, 3] : List ℚ).getLastD 0 -
            ([1, 2, 3] : List ℚ).getD (([1, 2, 3] : List ℚ).length - 1 - 1) 0) /
          ([1, 2, 3] : List ℚ).getD (([1, 2, 3] : List ℚ).length - 1 - 1) 0) * 100
      else 0) ∧
    (Technical.calculate_momentum [1, 2, 3] 1 =
      if 1 ≤ ([1, 2, 3] : List ℚ).length ∧
          ([1, 2, 3] : List ℚ).getD (([1, 2, 3] : List ℚ).length - 1) 0 ≠ 0 then
        ((([1, 2, 3] : List ℚ).getLastD 0 -
            ([1, 2, 3] : List ℚ).getD (([1, 2, 3] : List ℚ).length - 1) 0) /
          ([1, 2, 3] : List ℚ).getD (([1, 2, 3] : List ℚ).length - 1) 0) * 100
      else 0)) :=
  ⟨le_refl 1, c3_momentum_characterizations [1, 2, 3] 1 (le_refl 1)⟩

/-- C4 counterexample: at confidence 0 (which is in [0, 100]) the
confidence check fails first, so the reason is the confidence one, not
capital preservation. -/
theorem c4_confidence_first_cex :
    RiskManager.should_trade ⟨100, 100, []⟩ 25 0 0 =
      (false, TradeReason.confidenceTooLow 0) ∧
    RiskManager.should_trade ⟨100, 100, []⟩ 25 0 0 ≠
      (false, TradeReason.capitalPreservation 25 30) := by with_unfolding_all decide

/-- C4 amended: with initial capital 100 and capital 25 (below the 30%
floor), `should_trade` returns the capital-preservation rejection for
every confidence of at least 60; below 60 the earlier confidence check
fires instead (checks in order: confidence, capital floor, daily loss,
drawdown). -/
theorem c4_capital_preservation (peak : ℚ) (trades : List ℚ) (confidence : ℚ)
    (h60 : 60 ≤ confidence) :
    RiskManager.should_trade ⟨100, peak, trades⟩ 25 confidence 0 =
      (false, TradeReason.capitalPreservation 25 30) := by
  unfold RiskManager.should_trade
  rw [if_neg (by linarith), if_pos (by norm_num)]
  norm_num

/-- C4 witness: the amended theorem applied at confidence 60. -/
theorem c4_capital_preservation_witness :
    (60 : ℚ) ≤ 60 ∧
    RiskManager.should_trade ⟨100, 100, []⟩ 25 60 0 =
      (false, TradeReason.capitalPreservation 25 30) :=
  ⟨le_refl 60, c4_capital_preservation 100 [] 60 (le_refl 60)⟩

/-- C6: on 25 identical prices the code's RSI is 100, not the neutral
50 the spec's scenario requires (the `avg_loss == 0` branch is not
guarded by `avg_gain > 0`); the volatility is 0 (its square is 0) and
the baseline scorer emits no directional call, as claimed. -/
theorem c6_flat_series_eval :
    Technical.calculate_rsi (List.replicate 25 100) 14 = 100 ∧
    Technical.calculate_rsi (List.replicate 25 100) 14 ≠ 50 ∧
    Technical.calculate_volatility_sq (List.replicate 25 100) 10 = 0 ∧
    (Technical.analyze_price_action (List.replicate 25 100)).signal = Signal.neutral ∧
    (Technical.analyze_price_action (List.replicate 25 100)).confidence = 0 := by with_unfolding_all decide

/-- C7 counterexample: at capital 1.05 the clamped-and-capped value is
0.95 x 1.05 = 0.9975, which rounds up to 1.00 — the returned size
exceeds 95% of capital. -/
theorem c7_rounding_exceeds_cap_cex :
    (21/20 : ℚ) * (95/100) <
      RiskManager.calculate_position_size ⟨100, 100, []⟩ (21/20) 60 0 0 0 := by with_unfolding_all decide

/-- C7 amended: for every state and every input (including zero and
negative capital) the returned size never exceeds 95% of capital by
more than the final rounding step's half-cent; the min/max clamping
itself never raises in the rational model (the one division is by
`peak_capital`). -/
theorem c7_size_bounded (rm : RiskManager)
    (capital confidence recent_pnl : ℚ) (ws ls : ℤ) :
    rm.calculate_position_size capital confidence recent_pnl ws ls ≤
      capital * (95/100) + 1/200 := by
  simp only [RiskManager.calculate_position_size]
  exact round_min_cap_le _ _

/-- C8 counterexample: when the one request of `fetch_btc_price_data`
fails and no cache exists, the function returns the fabricated
non-empty list of 60 zeros, not the empty sequence. -/
theorem c8_fabricated_zeros_cex :
    Continuous.fetch_btc_price_data Continuous.Fetch.fail [] ≠ [] ∧
    Continuous.fetch_btc_price_data Continuous.Fetch.fail [] =
      List.replicate 60 0 := by with_unfolding_all decide

/-- C8 amended: `BTCPriceFeed.get_recent_prices` falls back to the
backup source on primary failure and returns the empty list when both
fail (it holds no cache); `ContinuousSignalEngine.fetch_btc_price_data`
has no secondary endpoint and on failure returns its cache when
non-empty and otherwise a placeholder of 60 zeros. -/
theorem c8_fallback_behaviour :
    (∀ (backup : PriceFeed.Fetch) (minutes : ℕ),
      PriceFeed.get_recent_prices PriceFeed.Fetch.fail backup minutes =
        PriceFeed.backup_prices backup) ∧
    (∀ minutes : ℕ,
      PriceFeed.get_recent_prices PriceFeed.Fetch.fail PriceFeed.Fetch.fail minutes = []) ∧
    (∀ cache : List ℚ, cache ≠ [] →
      Continuous.fetch_btc_price_data Continuous.Fetch.fail cache = cache) ∧
    Continuous.fetch_btc_price_data Continuous.Fetch.fail [] = List.replicate 60 0 := by
  refine ⟨fun backup minutes => rfl, fun minutes => rfl, fun cache hc => ?_, rfl⟩
  unfold Continuous.fetch_btc_price_data
  rw [if_pos hc]

/-- C8 witness: the amended theorem's cache clause applied at the
one-element cache [42]. -/
theorem c8_fallback_behaviour_witness :
    ([42] : List ℚ) ≠ [] ∧
    Continuous.fetch_btc_price_data Continuous.Fetch.fail [42] = [42] :=
  ⟨by decide, c8_fallback_behaviour.2.2.1 [42] (by decide)⟩

/-- C10: `calculate_position_size` and `should_trade` leave the
RiskManager unchanged, `update_peak` sets the peak to the max of the
old peak and the given capital while leaving every other field
unchanged, and over every sequence of core operations the peak is
monotone non-decreasing and the other fields are constant. -/
theorem c10_frame_and_peak_monotonicity :
    (∀ (rm : RiskManager) (capital confidence recent_pnl : ℚ) (ws ls : ℤ),
      RiskOp.apply rm (RiskOp.calcSize capital confidence recent_pnl ws ls) = rm) ∧
    (∀ (rm : RiskManager) (capital confidence daily_pnl : ℚ),
      RiskOp.apply rm (RiskOp.checkTrade capital confidence daily_pnl) = rm) ∧
    (∀ (rm : RiskManager) (capital : ℚ),
      (rm.update_peak capital).peak_capital = max rm.peak_capital capital ∧
      (rm.update_peak capital).initial_capital = rm.initial_capital ∧
      (rm.update_peak capital).recent_trades = rm.recent_trades) ∧
    (∀ (rm : RiskManager) (ops : List RiskOp),
      (RiskOp.run rm ops).initial_capital = rm.initial_capital ∧
      (RiskOp.run rm ops).recent_trades = rm.recent_trades ∧
      rm.peak_capital ≤ (RiskOp.run rm ops).peak_capital) :=
  ⟨fun rm _ _ _ _ _ => rfl, fun rm _ _ _ => rfl,
    fun rm capital => update_peak_spec rm capital, fun rm ops => run_frame rm ops⟩

theorem should_finalize_true_iff (st : SignalBot.EngineState) (t : SignalBot.Clock) :
    SignalBot.should_finalize st t = true ↔
      ((t.minute = 14 ∨ t.minute = 29 ∨ t.minute = 44 ∨ t.minute = 59) ∧
        |(t.second : ℤ) - 50| ≤ 5 ∧ st.last_finalize ≠ some (t.hour, t.minute)) := by
  simp only [SignalBot.should_finalize, SignalBot.finalize_times, List.any_cons,
    List.any_nil, Bool.or_eq_true, Bool.and_eq_true, decide_eq_true_eq,
    Bool.or_eq_false_iff]
  push_cast
  tauto

/-- C9: once a finalize emission has recorded the window's hour-minute
stamp in `last_finalize`, `should_finalize` returns false at every
clock reading in the same 15-minute market window, so a second
finalize record for that window is never appended. -/
theorem c9_finalize_dedup_per_window (st : SignalBot.EngineState)
    (t1 t2 : SignalBot.Clock)
    (h1 : SignalBot.should_finalize st t1 = true)
    (hw : SignalBot.windowOf t1 = SignalBot.windowOf t2) :
    SignalBot.should_finalize (SignalBot.emit_signals st t1 true) t2 = false := by
  have hhour : t1.hour = t2.hour := congrArg Prod.fst hw
  have hq : t1.minute / 15 = t2.minute / 15 := congrArg Prod.snd hw
  rw [should_finalize_true_iff] at h1
  by_contra hcon
  rw [Bool.not_eq_false, should_finalize_true_iff] at hcon
  obtain ⟨hm1, -, -⟩ := h1
  obtain ⟨hm2, -, hne⟩ := hcon
  have hms : t1.minute = t2.minute := by
    rcases hm1 with h | h | h | h <;> rcases hm2 with g | g | g | g <;> omega
  apply hne
  simp [SignalBot.emit_signals, hhour, hms]

/-- C9 witness: the theorem applied at a finalize trigger 03:14:50 and
a later reading 03:14:55 in the same window. -/
theorem c9_finalize_dedup_per_window_witness :
    SignalBot.should_finalize ⟨none⟩ ⟨3, 14, 50⟩ = true ∧
    SignalBot.windowOf ⟨3, 14, 50⟩ = SignalBot.windowOf ⟨3, 14, 55⟩ ∧
    SignalBot.should_finalize
      (SignalBot.emit_signals ⟨none⟩ ⟨3, 14, 50⟩ true) ⟨3, 14, 55⟩ = false :=
  ⟨by decide, by decide,
    c9_finalize_dedup_per_window ⟨none⟩ ⟨3, 14, 50⟩ ⟨3, 14, 55⟩ (by decide) (by decide)⟩

theorem gates_required_of_iff (pArr : List ℚ) (hour : ℕ) :
    (Institutional.gates_required_of pArr hour = 2 ↔
      (Institutional.is_active_session hour = true ∨
        Institutional.recent_var pArr > 9/40000)) ∧
    (Institutional.gates_required_of pArr hour = 3 ↔
      ¬(Institutional.is_active_session hour = true ∨
        Institutional.recent_var pArr > 9/40000)) := by
  unfold Institutional.gates_required_of
  have hb : (Institutional.is_active_session hour || Institutional.high_vol pArr) = true ↔
      (Institutional.is_active_session hour = true ∨
        Institutional.recent_var pArr > 9/40000) := by
    simp [Institutional.high_vol]
  by_cases h : (Institutional.is_active_session hour || Institutional.high_vol pArr) = true
  · rw [if_pos h]
    simp only [hb] at h
    constructor
    · exact ⟨fun _ => h, fun _ => rfl⟩
    · exact ⟨fun h3 => by omega, fun hn => absurd h hn⟩
  · rw [if_neg h]
    rw [hb] at h  -- h is now the negation of the prop via Bool.not_eq_true
    constructor
    · exact ⟨fun h2 => by omega, fun hp => absurd hp h⟩
    · exact ⟨fun _ => h, fun _ => rfl⟩

/-- C5: for at least 50 prices, the institutional analysis requires 2
gates exactly when the UTC hour is in the London session [8,16) or the
New York session [13,21) or the recent volatility exceeds the 1.5%
regime threshold (encoded on squares: variance of recent returns
> (1.5/100)^2), and 3 gates otherwise; a directional signal is emitted
only when the passed gates meet the requirement and the confidence is
at least 70, otherwise the result is neutral with confidence 0. -/
theorem c5_institutional_gating (prices : List ℚ) (volumes : Option (List ℚ))
    (hour : ℕ) (hlen : 50 ≤ prices.length) :
    ((Institutional.analyze prices volumes hour).gates_required = 2 ↔
      (Institutional.is_active_session hour = true ∨
        Institutional.recent_var (lastN 50 prices) > 9/40000)) ∧
    ((Institutional.analyze prices volumes hour).gates_required = 3 ↔
      ¬(Institutional.is_active_session hour = true ∨
        Institutional.recent_var (lastN 50 prices) > 9/40000)) ∧
    (Institutional.is_active_session hour = true ↔
      ((8 ≤ hour ∧ hour < 16) ∨ (13 ≤ hour ∧ hour < 21))) ∧
    ((Institutional.analyze prices volumes hour).signal ≠ Signal.neutral →
      (Institutional.analyze prices volumes hour).gates_passed ≥
          (Institutional.analyze prices volumes hour).gates_required ∧
        (Institutional.analyze prices volumes hour).confidence ≥ 70) ∧
    ((Institutional.analyze prices volumes hour).signal = Signal.neutral →
      (Institutional.analyze prices volumes hour).confidence = 0) := by
  have hg : ¬ prices.length < 50 := by omega
  have hsess : Institutional.is_active_session hour = true ↔
      ((8 ≤ hour ∧ hour < 16) ∨ (13 ≤ hour ∧ hour < 21)) := by
    simp [Institutional.is_active_session]
  simp only [Institutional.analyze, if_neg hg]
  by_cases hdec : Institutional.gates_passed_of (lastN 50 prices) volumes ≥
      Institutional.gates_required_of (lastN 50 prices) hour ∧
      Institutional.confidence_of (lastN 50 prices) volumes hour ≥ 70
  · rw [if_pos hdec]
    refine ⟨(gates_required_of_iff (lastN 50 prices) hour).1,
      (gates_required_of_iff (lastN 50 prices) hour).2, hsess,
      fun _ => hdec, fun hn => ?_⟩
    exfalso
    revert hn
    by_cases hd : (Institutional.check_momentum_deceleration (lastN 50 prices)).2 > 0 <;>
      simp [hd]
  · rw [if_neg hdec]
    exact ⟨(gates_required_of_iff (lastN 50 prices) hour).1,
      (gates_required_of_iff (lastN 50 prices) hour).2, hsess,
      fun hn => absurd rfl hn, fun _ => rfl⟩

/-- C5 witness: the theorem applied to 50 flat prices, no volumes, and
UTC hour 3. -/
theorem c5_institutional_gating_witness :
    50 ≤ (List.replicate 50 (100 : ℚ)).length ∧
    (((Institutional.analyze (List.replicate 50 100) none 3).gates_required = 2 ↔
      (Institutional.is_active_session 3 = true ∨
        Institutional.recent_var (lastN 50 (List.replicate 50 100)) > 9/40000)) ∧
    ((Institutional.analyze (List.replicate 50 100) none 3).gates_required = 3 ↔
      ¬(Institutional.is_active_session 3 = true ∨
        Institutional.recent_var (lastN 50 (List.replicate 50 100)) > 9/40000)) ∧
    (Institutional.is_active_session 3 = true ↔
      ((8 ≤ 3 ∧ 3 < 16) ∨ (13 ≤ 3 ∧ 3 < 21))) ∧
    ((Institutional.analyze (List.replicate 50 100) none 3).signal ≠ Signal.neutral →
      (Institutional.analyze (List.replicate 50 100) none 3).gates_passed ≥
          (Institutional.analyze (List.replicate 50 100) none 3).gates_required ∧
        (Institutional.analyze (List.replicate 50 100) none 3).confidence ≥ 70) ∧
    ((Institutional.analyze (List.replicate 50 100) none 3).signal = Signal.neutral →
      (Institutional.analyze (List.replicate 50 100) none 3).confidence = 0)) :=
  ⟨by decide, c5_institutional_gating (List.replicate 50 100) none 3 (by decide)⟩

/-- C2 counterexample: on the 20-point strictly decreasing list
100, 99, ..., 81 the baseline scorer's RSI is 0, its oversold branch
fires, and the emitted confidence is min(70 + 30, 100) = 100 — the
baseline clamps at 100, not 95. -/
theorem c2_baseline_confidence_100_cex :
    (Technical.analyze_price_action
      ((List.range 20).map (fun i => (100 - i : ℚ)))).confidence = 100 ∧
    ¬((Technical.analyze_price_action
      ((List.range 20).map (fun i => (100 - i : ℚ)))).confidence ≤ 95) := by
  with_unfolding_all decide

theorem int_conf_bounds (q : ℚ) (hq : 0 ≤ q) :
    0 ≤ min 95 (pyInt q) ∧ min 95 (pyInt q) ≤ 95 :=
  ⟨le_min (by norm_num) (pyInt_nonneg q hq), min_le_left _ _⟩

/-- C2 amended: the aggressive signal-bot engine and the continuous
engine clamp the emitted confidence to [0, 95]; the baseline
`analyze_price_action` clamps to [0, 100] instead and can emit 100. -/
theorem decide_signal_bounds (score mom60 : ℚ) :
    0 ≤ (SignalBot.decide_signal score mom60).2 ∧
      (SignalBot.decide_signal score mom60).2 ≤ 95 := by
  unfold SignalBot.decide_signal
  split_ifs with h1 h2 h3 h4
  · exact int_conf_bounds _ (by linarith)
  · exact int_conf_bounds _ (by positivity)
  · exact ⟨by norm_num, by norm_num⟩
  · exact ⟨by norm_num, by norm_num⟩
  · exact ⟨le_refl 0, by norm_num⟩

theorem decide_advanced_bounds (score : ℚ) :
    0 ≤ (Continuous.decide_advanced score).2 ∧
      (Continuous.decide_advanced score).2 ≤ 95 := by
  unfold Continuous.decide_advanced
  split_ifs with h1 h2
  · exact int_conf_bounds _ (by linarith)
  · exact int_conf_bounds _ (by positivity)
  · exact ⟨le_refl 0, by norm_num⟩

/-- C2 amended: the aggressive signal-bot engine and the continuous
engine clamp the emitted confidence to [0, 95]; the baseline
`analyze_price_action` clamps to [0, 100] instead and can emit 100. -/
theorem c2_scorer_confidence_bounds :
    (∀ (prices volumes : List ℚ) (recent_vol earlier_vol : ℚ),
      0 ≤ (SignalBot.generate_signal prices volumes recent_vol earlier_vol).2 ∧
        (SignalBot.generate_signal prices volumes recent_vol earlier_vol).2 ≤ 95) ∧
    (∀ (prices : List ℚ) (volatility_pct vol_recent : ℚ),
      0 ≤ (Continuous.calculate_advanced_signal prices volatility_pct vol_recent).2 ∧
        (Continuous.calculate_advanced_signal prices volatility_pct vol_recent).2 ≤ 95) ∧
    (∀ prices : List ℚ,
      0 ≤ (Technical.analyze_price_action prices).confidence ∧
        (Technical.analyze_price_action prices).confidence ≤ 100) := by
  refine ⟨fun prices volumes rv ev => ?_, fun prices vp vr => ?_, fun prices => ?_⟩
  · by_cases h1 : prices.length < 120
    · simp only [SignalBot.generate_signal, if_pos h1]
      exact ⟨le_refl 0, by norm_num⟩
    · simp only [SignalBot.generate_signal, if_neg h1]
      exact decide_signal_bounds _ _
  · by_cases h1 : prices.length < 20
    · simp only [Continuous.calculate_advanced_signal, if_pos h1]
      exact ⟨le_refl 0, by norm_num⟩
    · simp only [Continuous.calculate_advanced_signal, if_neg h1]
      exact decide_advanced_bounds _
  · simp only [Technical.analyze_price_action]
    split_ifs with g1 g2 g3 g4 g5 g6 <;> dsimp only
    · exact ⟨le_refl 0, by norm_num⟩
    · exact ⟨le_min (by linarith [g2.1]) (by norm_num), min_le_right _ _⟩
    · exact ⟨le_min (by linarith [g3.1]) (by norm_num), min_le_right _ _⟩
    · have hp : (0:ℤ) ≤ pyInt (Technical.calculate_momentum prices 5 * 10) :=
        pyInt_nonneg _ (by linarith [g5.1])
      constructor
      · exact_mod_cast le_min (by omega :
          (0:ℤ) ≤ 50 + pyInt (Technical.calculate_momentum prices 5 * 10))
          (by norm_num : (0:ℤ) ≤ 100)
      · exact_mod_cast min_le_right
          (50 + pyInt (Technical.calculate_momentum prices 5 * 10)) (100:ℤ)
    · have hp : (0:ℤ) ≤ pyInt (|Technical.calculate_momentum prices 5| * 10) :=
        pyInt_nonneg _ (by positivity)
      constructor
      · exact_mod_cast le_min (by omega :
          (0:ℤ) ≤ 50 + pyInt (|Technical.calculate_momentum prices 5| * 10))
          (by norm_num : (0:ℤ) ≤ 100)
      · exact_mod_cast min_le_right
          (50 + pyInt (|Technical.calculate_momentum prices 5| * 10)) (100:ℤ)
    · exact ⟨le_refl 0, by norm_num⟩
    · exact ⟨le_refl 0, by norm_num⟩
